import Mathlib

/-!
Shallow embedding of the Chicken fitness backend core
(identity/token lifecycle and idempotent ledger layer).

Tables are Lean lists; a SQLAlchemy `Session` is a `DB` record holding the
three tables the core touches; `query(...).first()` is `List.find?`;
committing an ORM mutation of the object returned by `.first()` is an
in-place replacement of the first matching list element.  Naive UTC
datetimes are `Nat` instants; Python `int` is `Int`; nullable columns are
`Option`.  The helpers from `app/core/security.py` (not part of the staged
sources) are passed in as parameters: `hash` for `hash_refresh_token`,
`cat` for `create_access_token`, and the freshly generated plaintext,
expiry pair and autoincrement ids of each call are explicit arguments, so
every theorem holds for every implementation of those helpers.
-/

/-- Python truthiness of an optional string: `None` and `""` are falsy.
Used for `if idempotency_key:`, `if payload.device_id:`, `if not user.email`,
`if not info.get("email")` and the like. -/
def strTruthy : Option String → Bool
  | none => false
  | some s => s != ""

/-- Account record, `app/models/user.py` (spec section 3); the fields are the
ones the staged routers read and write. -/
structure User where
  id : Nat
  status : String
  google_sub : Option String
  device_id : Option String
  email : Option String
  auth_provider : Option String
  created_at : Nat
  last_login_at : Option Nat
  deriving DecidableEq

/-- `RefreshToken` row, `app/models/refresh_token.py`: hashed rotating
credential; `revoked_at = none` means active. -/
structure RefreshToken where
  id : Nat
  user_id : Nat
  token_hash : String
  expires_at : Nat
  revoked_at : Option Nat
  created_at : Nat
  created_ip : Option String
  created_user_agent : String
  deriving DecidableEq

/-- `CoinsLedger` row, `app/models/economy.py`, with the columns
`app/services/ledger.py` uses: immutable signed delta plus the two dedup
keys. -/
structure CoinsLedger where
  user_id : Nat
  delta : Int
  source : String
  ref_id : Option Nat
  idempotency_key : Option String
  created_at : Nat
  deriving DecidableEq

/-- The database state a `Session` gives access to. -/
structure DB where
  users : List User
  refresh_tokens : List RefreshToken
  coins_ledger : List CoinsLedger
  deriving DecidableEq

/-- A raised `HTTPException`: status code plus detail string. -/
structure HTTPError where
  status_code : Nat
  detail : String
  deriving DecidableEq

/-! ## app/services/ledger.py -/

/-- `get_coins_balance`: `coalesce(sum(delta), 0)` over the rows of one
account (`ledger.py` lines 7-11). -/
def get_coins_balance (db : DB) (user_id : Nat) : Int :=
  ((db.coins_ledger.filter (fun r => r.user_id == user_id)).map
    (fun r => r.delta)).sum

/-- `add_ledger_entry` (`ledger.py` lines 13-57): dedup lookup first by
`(user_id, idempotency_key)` when the key is truthy, then — whenever that
found nothing — by `(user_id, source, ref_id)` when `ref_id` is not `None`;
a hit returns the stored delta unchanged, otherwise a fresh immutable row is
inserted and the requested delta returned. -/
def add_ledger_entry (db : DB) (now : Nat) (user_id : Nat) (delta : Int)
    (source : String) (ref_id : Option Nat) (idempotency_key : Option String) :
    Int × DB :=
  let exists1 : Option CoinsLedger :=
    if strTruthy idempotency_key then
      db.coins_ledger.find? (fun r =>
        r.user_id == user_id && r.idempotency_key == idempotency_key)
    else none
  let exists2 : Option CoinsLedger :=
    match exists1 with
    | some r => some r
    | none =>
      match ref_id with
      | some rid =>
        db.coins_ledger.find? (fun r =>
          r.user_id == user_id && r.source == source && r.ref_id == some rid)
      | none => none
  match exists2 with
  | some r => (r.delta, db)
  | none =>
    let row : CoinsLedger :=
      { user_id := user_id, delta := delta, source := source,
        ref_id := ref_id, idempotency_key := idempotency_key,
        created_at := now }
    (delta, { db with coins_ledger := db.coins_ledger ++ [row] })

/-! ## app/routers/auth_refresh.py -/

/-- Response body of `POST /refresh`. -/
structure RefreshOut where
  access_token : String
  access_token_expires_in : Nat
  refresh_token : String
  refresh_token_expires_in : Nat
  deriving DecidableEq

/-- Mutation committed by `old_rt.revoked_at = now; db.commit()`
(`auth_refresh.py` lines 55-57): the first row whose `token_hash` matches
the presented hash — the row `.first()` returned — gets `revoked_at` set. -/
def revokeFirstByHash (old_hash : String) (now : Nat) :
    List RefreshToken → List RefreshToken
  | [] => []
  | rt :: rts =>
    if rt.token_hash == old_hash then { rt with revoked_at := some now } :: rts
    else rt :: revokeFirstByHash old_hash now rts

/-- Read phase of the `/refresh` handler (`auth_refresh.py` lines 32-53):
hash the presented value, look up the matching row, reject it when missing,
revoked or expired (`if not old_rt or old_rt.revoked_at or
old_rt.expires_at <= now`), then load the owning user. No write happens
here; both SELECTs run against the same snapshot `db`. -/
def rotate_read (hash : String → String) (now : Nat) (db : DB)
    (presented : String) : Except HTTPError (RefreshToken × User) :=
  let old_hash := hash presented
  match db.refresh_tokens.find? (fun rt => rt.token_hash == old_hash) with
  | none => .error ⟨401, "Invalid refresh token"⟩
  | some old_rt =>
    if old_rt.revoked_at ≠ none ∨ old_rt.expires_at ≤ now then
      .error ⟨401, "Invalid refresh token"⟩
    else
      match db.users.find? (fun u => u.id == old_rt.user_id) with
      | none => .error ⟨401, "User not found"⟩
      | some user => .ok (old_rt, user)

/-- Write phase of the `/refresh` handler (`auth_refresh.py` lines 53-87):
set `revoked_at` on the fetched row and commit, insert the replacement row
carrying the hash of the freshly generated plaintext and commit again, then
build the response. It is unconditional: nothing re-checks that the fetched
row is still unrevoked, and it cannot fail. -/
def rotate_write (hash : String → String)
    (cat : Nat → Bool → String × Nat) (now : Nat) (new_rt_plain : String)
    (new_rt_id new_expires_at new_expires_in : Nat)
    (created_ip : Option String) (user_agent : String)
    (db : DB) (presented : String) (found : RefreshToken × User) :
    RefreshOut × DB :=
  let user := found.2
  let is_guest := user.status == "guest"
  let db1 : DB :=
    { db with refresh_tokens :=
        revokeFirstByHash (hash presented) now db.refresh_tokens }
  let new_rt : RefreshToken :=
    { id := new_rt_id, user_id := user.id, token_hash := hash new_rt_plain,
      expires_at := new_expires_at, revoked_at := none, created_at := now,
      created_ip := created_ip, created_user_agent := user_agent.take 255 }
  let db2 : DB := { db1 with refresh_tokens := db1.refresh_tokens ++ [new_rt] }
  let at_pair := cat user.id is_guest
  ({ access_token := at_pair.1, access_token_expires_in := at_pair.2,
     refresh_token := new_rt_plain,
     refresh_token_expires_in := new_expires_in }, db2)

/-- `refresh_token` handler of `POST /refresh` (`auth_refresh.py` lines
29-87): the read phase followed, on the same session, by the write phase;
on failure the exception propagates and the database is untouched. -/
def refresh_token (hash : String → String)
    (cat : Nat → Bool → String × Nat) (now : Nat) (new_rt_plain : String)
    (new_rt_id new_expires_at new_expires_in : Nat)
    (created_ip : Option String) (user_agent : String)
    (db : DB) (presented : String) : Except HTTPError RefreshOut × DB :=
  match rotate_read hash now db presented with
  | .error e => (.error e, db)
  | .ok found =>
    let r := rotate_write hash cat now new_rt_plain new_rt_id new_expires_at
      new_expires_in created_ip user_agent db presented found
    (.ok r.1, r.2)

/-! ## app/routers/auth_google.py -/

/-- The claims dictionary the Google verifier returns, restricted to the
keys the handler reads; a missing key is `none`. -/
structure GoogleClaims where
  sub : Option String
  email : Option String
  email_verified : Option Bool
  deriving DecidableEq

/-- `verify_google_token` (`auth_google.py` lines 44-75). The external
`google_id_token.verify_oauth2_token` call is the input: `none` when it
raised, `some info` when it returned claims. The handler then rejects a
falsy email, a claims dictionary asserting `email_verified is False` (a
missing `email_verified` key passes), and a falsy subject id. -/
def verify_google_token (verified : Option GoogleClaims) :
    Except HTTPError GoogleClaims :=
  match verified with
  | none => .error ⟨401, "Invalid Google id_token"⟩
  | some info =>
    if !strTruthy info.email then
      .error ⟨401, "Google token missing email"⟩
    else if info.email_verified == some false then
      .error ⟨401, "Google email not verified"⟩
    else if !strTruthy info.sub then
      .error ⟨401, "Google token missing sub"⟩
    else .ok info

/-- Python `str.lower()` as the handler applies it to the claimed email,
character by character. -/
def pyLower (s : String) : String := ⟨s.data.map Char.toLower⟩

/-- Python `str.strip()`: remove leading and trailing whitespace. -/
def pyStrip (s : String) : String :=
  ⟨((s.data.dropWhile Char.isWhitespace).reverse.dropWhile
    Char.isWhitespace).reverse⟩

/-- Response body of `POST /auth/google`. -/
structure GoogleAuthOut where
  user_id : Nat
  access_token : String
  expires_in : Nat
  is_guest : Bool
  refresh_token : String
  refresh_expires_in : Nat
  deriving DecidableEq

/-- Committing a mutation of the user object that `.first()` returned:
replace the first element matching the query predicate. -/
def updateFirst (p : User → Bool) (f : User → User) :
    List User → List User
  | [] => []
  | u :: us => if p u then f u :: us else u :: updateFirst p f us

/-- Branch 1 of the handler (`auth_google.py` lines 142-151), applied to an
account already holding this `google_sub`: refresh the login timestamp,
fill in a falsy email, and force status `user` and provider `google`. -/
def refreshBoundUser (now : Nat) (email : String) (u : User) : User :=
  let u1 := { u with last_login_at := some now }
  let u2 := if !strTruthy u1.email then { u1 with email := some email } else u1
  let u3 := if u2.status != "user" then { u2 with status := "user" } else u2
  if u3.auth_provider != some "google" then
    { u3 with auth_provider := some "google" }
  else u3

/-- Guest upgraded in place (`auth_google.py` lines 109-114). -/
def upgradeGuest (now : Nat) (google_sub email : String) (g : User) : User :=
  { g with
    google_sub := some google_sub,
    email := some email,
    status := "user",
    auth_provider := some "google",
    last_login_at := some now }

/-- `google_auth` handler of `POST /auth/google` (`auth_google.py` lines
78-183). `verified` is the outcome of the external verifier; `new_user_id`
and `new_rt_id` are the autoincrement ids a commit would assign; `rt_plain`
is the freshly generated refresh secret. Resolution order: by `google_sub`;
else, with a truthy `device_id`, upgrade the matching guest unless the
normalized email is owned by a different account with a different
`google_sub` (409); else insert a brand-new `user` account. On success a
hashed refresh-token row is inserted and the plaintext returned once. -/
def google_auth (hash : String → String)
    (cat : Nat → Bool → String × Nat) (now : Nat)
    (verified : Option GoogleClaims) (device_id : Option String)
    (new_user_id : Nat) (rt_plain : String) (new_rt_id : Nat)
    (rt_expires_at rt_expires_in : Nat)
    (created_ip : Option String) (user_agent : String)
    (db : DB) : Except HTTPError GoogleAuthOut × DB :=
  match verify_google_token verified with
  | .error e => (.error e, db)
  | .ok info =>
    let google_sub := info.sub.getD ""
    let email := pyStrip (pyLower (info.email.getD ""))
    let resolved : Except HTTPError (User × List User) :=
      match db.users.find? (fun u => u.google_sub == some google_sub) with
      | some u0 =>
        let u := refreshBoundUser now email u0
        .ok (u, updateFirst (fun v => v.google_sub == some google_sub)
          (fun _ => u) db.users)
      | none =>
        if strTruthy device_id then
          match db.users.find? (fun u =>
              u.device_id == device_id && u.status == "guest") with
          | some guest =>
            let conflict :=
              match db.users.find? (fun u =>
                  u.email == some email && u.id != guest.id) with
              | some owner => owner.google_sub != some google_sub
              | none => false
            if conflict then
              .error ⟨409, "Email already in use by another account"⟩
            else
              let g := upgradeGuest now google_sub email guest
              .ok (g, updateFirst (fun u =>
                u.device_id == device_id && u.status == "guest")
                (fun _ => g) db.users)
          | none =>
            let u : User :=
              { id := new_user_id, status := "user",
                auth_provider := some "google", google_sub := some google_sub,
                email := some email, device_id := device_id,
                created_at := now, last_login_at := some now }
            .ok (u, db.users ++ [u])
        else
          let u : User :=
            { id := new_user_id, status := "user",
              auth_provider := some "google", google_sub := some google_sub,
              email := some email, device_id := none,
              created_at := now, last_login_at := some now }
          .ok (u, db.users ++ [u])
    match resolved with
    | .error e => (.error e, db)
    | .ok ru =>
      let at_pair := cat ru.1.id false
      let rt_row : RefreshToken :=
        { id := new_rt_id, user_id := ru.1.id, token_hash := hash rt_plain,
          expires_at := rt_expires_at, revoked_at := none, created_at := now,
          created_ip := created_ip, created_user_agent := user_agent.take 255 }
      let db2 : DB :=
        { db with
          users := ru.2,
          refresh_tokens := db.refresh_tokens ++ [rt_row] }
      (.ok { user_id := ru.1.id, access_token := at_pair.1,
             expires_in := at_pair.2, is_guest := false,
             refresh_token := rt_plain,
             refresh_expires_in := rt_expires_in }, db2)

/-! ## app/services/chicken_status.py -/

/-- The `while cur in activity_dates` loop of `calc_current_streak`
(`chicken_status.py` lines 199-206): dates are UTC day numbers (`ℤ`), the
set of activity days is finite, and each pass moves one day back, so the
count of set members at or below the cursor strictly shrinks. -/
def streak_from (s : Finset ℤ) (cur : ℤ) : Nat :=
  if h : cur ∈ s then 1 + streak_from s (cur - 1) else 0
termination_by (s.filter (fun d => d ≤ cur)).card
decreasing_by
  apply Finset.card_lt_card
  apply (Finset.ssubset_iff_of_subset ?_).2
  · exact ⟨cur, Finset.mem_filter.2 ⟨h, le_refl cur⟩,
      fun hc => by have := (Finset.mem_filter.1 hc).2; omega⟩
  · intro d hd
    have hd2 := Finset.mem_filter.1 hd
    exact Finset.mem_filter.2 ⟨hd2.1, by omega⟩

/-- `calc_current_streak` (`chicken_status.py` lines 190-206): length of the
run of consecutive activity days ending today, counting back from `today`;
an empty set short-circuits to 0. -/
def calc_current_streak (today : ℤ) (activity_dates : Finset ℤ) : Nat :=
  if activity_dates = ∅ then 0
  else streak_from activity_dates today

/-! ## Ledger claims -/

/-- The balance as section 3 of the spec words it: the sum of the delta
fields of all ledger rows belonging to the account. Stated independently of
`get_coins_balance` so the code can be compared against the spec. -/
def balance_spec (db : DB) (uid : Nat) : Int :=
  (db.coins_ledger.map (fun r => if r.user_id == uid then r.delta else 0)).sum

/-- A `record` call whose `(account, source, ref_id)` dedup key matches no
row inserts a fresh row and returns the requested delta. -/
lemma add_no_ref_match (db : DB) (now uid : Nat) (d : Int) (s : String)
    (rid : Nat)
    (h : db.coins_ledger.find? (fun r =>
      r.user_id == uid && r.source == s && r.ref_id == some rid) = none) :
    add_ledger_entry db now uid d s (some rid) none
      = (d, { db with coins_ledger :=
          db.coins_ledger ++ [⟨uid, d, s, some rid, none, now⟩] }) := by
  simp [add_ledger_entry, strTruthy, h]

/-- Retrying after such an insert finds the inserted row, returns its stored
delta and leaves the table unchanged. -/
lemma add_ref_retry_found (db : DB) (now1 now2 uid : Nat) (d d2 : Int)
    (s : String) (rid : Nat)
    (h : db.coins_ledger.find? (fun r =>
      r.user_id == uid && r.source == s && r.ref_id == some rid) = none) :
    add_ledger_entry
      { db with coins_ledger := db.coins_ledger ++ [⟨uid, d, s, some rid, none, now1⟩] }
      now2 uid d2 s (some rid) none
      = (d, { db with coins_ledger :=
          db.coins_ledger ++ [⟨uid, d, s, some rid, none, now1⟩] }) := by
  have h2 : (db.coins_ledger ++ [(⟨uid, d, s, some rid, none, now1⟩ : CoinsLedger)]).find?
      (fun r => r.user_id == uid && r.source == s && r.ref_id == some rid)
      = some ⟨uid, d, s, some rid, none, now1⟩ := by
    rw [List.find?_append, h]
    simp
  simp [add_ledger_entry, strTruthy, h2]

/-- Claim C4: calling the ledger writer twice with the same account, source
and `ref_id` (and no idempotency key) against a store holding no row for
that dedup key returns the stored delta both times — never zero or a
recomputed value — leaves the second call's store identical to the first
call's, and leaves exactly one ledger row for that dedup key. -/
theorem add_ledger_entry_retry_idempotent
    (db : DB) (now1 now2 uid : Nat) (d : Int) (s : String) (rid : Nat)
    (h : db.coins_ledger.find? (fun r =>
      r.user_id == uid && r.source == s && r.ref_id == some rid) = none) :
    (add_ledger_entry db now1 uid d s (some rid) none).1 = d
  ∧ (add_ledger_entry (add_ledger_entry db now1 uid d s (some rid) none).2
       now2 uid d s (some rid) none).1 = d
  ∧ (add_ledger_entry (add_ledger_entry db now1 uid d s (some rid) none).2
       now2 uid d s (some rid) none).2
      = (add_ledger_entry db now1 uid d s (some rid) none).2
  ∧ ((add_ledger_entry db now1 uid d s (some rid) none).2.coins_ledger.filter
      (fun r => r.user_id == uid && r.source == s && r.ref_id == some rid)).length
      = 1 := by
  have h1 := add_no_ref_match db now1 uid d s rid h
  have h2 := add_ref_retry_found db now1 now2 uid d d s rid h
  refine ⟨by rw [h1], ?_, ?_, ?_⟩
  · rw [h1, h2]
  · rw [h1, h2]
  · rw [h1]
    have hnil : db.coins_ledger.filter (fun r =>
        r.user_id == uid && r.source == s && r.ref_id == some rid) = [] :=
      List.filter_eq_nil_iff.2 (List.find?_eq_none.1 h)
    simp [List.filter_append, hnil]

/-- Witness for claim C4: `record(1, 10, "checkin", ref_id=5)` called twice
on an empty store returns 10 both times and leaves one row. -/
theorem add_ledger_entry_retry_idempotent_witness :
    (add_ledger_entry ⟨[], [], []⟩ 0 1 10 "checkin" (some 5) none).1 = 10
  ∧ (add_ledger_entry (add_ledger_entry ⟨[], [], []⟩ 0 1 10 "checkin" (some 5) none).2
       1 1 10 "checkin" (some 5) none).1 = 10
  ∧ (add_ledger_entry (add_ledger_entry ⟨[], [], []⟩ 0 1 10 "checkin" (some 5) none).2
       1 1 10 "checkin" (some 5) none).2
      = (add_ledger_entry ⟨[], [], []⟩ 0 1 10 "checkin" (some 5) none).2
  ∧ ((add_ledger_entry ⟨[], [], []⟩ 0 1 10 "checkin" (some 5) none).2.coins_ledger.filter
      (fun r => r.user_id == 1 && r.source == "checkin" && r.ref_id == some 5)).length
      = 1 :=
  add_ledger_entry_retry_idempotent ⟨[], [], []⟩ 0 1 1 10 "checkin" 5 rfl

/-- Counterexample to claim C5 as stated: on an empty store, two `record`
calls with the distinct non-null idempotency keys "k1" and "k2" but the same
`(source, ref_id)` pair `("checkin", 5)` do collapse into one row: the
second call returns the first call's stored delta 10 (not its own 7) and
the store holds a single row, because the key lookup misses and the code
falls back to the `(account, source, ref_id)` lookup. -/
theorem distinct_keys_collapse_cex :
    (add_ledger_entry
      (add_ledger_entry ⟨[], [], []⟩ 0 1 10 "checkin" (some 5) (some "k1")).2
      1 1 7 "checkin" (some 5) (some "k2")).1 = 10
  ∧ (add_ledger_entry
      (add_ledger_entry ⟨[], [], []⟩ 0 1 10 "checkin" (some 5) (some "k1")).2
      1 1 7 "checkin" (some 5) (some "k2")).2.coins_ledger.length = 1 := by
  constructor <;> rfl

/-- Claim C5 as amended: two `record` calls supplying distinct non-null
idempotency keys new to the store never collapse into one row provided the
`(account, source, ref_id)` fallback cannot fire — here, `ref_id` absent:
each call inserts its own row and returns its own delta. -/
theorem distinct_keys_separate_rows
    (db : DB) (now1 now2 uid : Nat) (d1 d2 : Int) (s1 s2 k1 k2 : String)
    (hne : k1 ≠ k2)
    (h1 : db.coins_ledger.find? (fun r =>
      r.user_id == uid && r.idempotency_key == some k1) = none)
    (h2 : db.coins_ledger.find? (fun r =>
      r.user_id == uid && r.idempotency_key == some k2) = none) :
    (add_ledger_entry db now1 uid d1 s1 none (some k1)).1 = d1
  ∧ (add_ledger_entry (add_ledger_entry db now1 uid d1 s1 none (some k1)).2
      now2 uid d2 s2 none (some k2)).1 = d2
  ∧ (add_ledger_entry (add_ledger_entry db now1 uid d1 s1 none (some k1)).2
      now2 uid d2 s2 none (some k2)).2.coins_ledger.length
      = db.coins_ledger.length + 2 := by
  have e1 : add_ledger_entry db now1 uid d1 s1 none (some k1)
      = (d1, { db with coins_ledger :=
          db.coins_ledger ++ [⟨uid, d1, s1, none, some k1, now1⟩] }) := by
    by_cases hk : k1 = ""
    · simp [add_ledger_entry, strTruthy, hk]
    · simp [add_ledger_entry, strTruthy, hk, h1]
  rw [e1]
  have e2 : add_ledger_entry
      { db with coins_ledger := db.coins_ledger ++ [⟨uid, d1, s1, none, some k1, now1⟩] }
      now2 uid d2 s2 none (some k2)
      = (d2, { db with coins_ledger :=
          (db.coins_ledger ++ [⟨uid, d1, s1, none, some k1, now1⟩])
            ++ [⟨uid, d2, s2, none, some k2, now2⟩] }) := by
    by_cases hk : k2 = ""
    · simp [add_ledger_entry, strTruthy, hk]
    · have hfind : (db.coins_ledger ++ [(⟨uid, d1, s1, none, some k1, now1⟩ : CoinsLedger)]).find?
          (fun r => r.user_id == uid && r.idempotency_key == some k2) = none := by
        rw [List.find?_append, h2]
        simp [hne]
      simp [add_ledger_entry, strTruthy, hk, hfind]
  rw [e2]
  simp

/-- Witness for the amended claim C5: keys "k1" and "k2" with no `ref_id`
on an empty store insert two rows and return their own deltas. -/
theorem distinct_keys_separate_rows_witness :
    (add_ledger_entry ⟨[], [], []⟩ 0 1 10 "checkin" none (some "k1")).1 = 10
  ∧ (add_ledger_entry (add_ledger_entry ⟨[], [], []⟩ 0 1 10 "checkin" none (some "k1")).2
      1 1 7 "checkin" none (some "k2")).1 = 7
  ∧ (add_ledger_entry (add_ledger_entry ⟨[], [], []⟩ 0 1 10 "checkin" none (some "k1")).2
      1 1 7 "checkin" none (some "k2")).2.coins_ledger.length
      = (⟨[], [], []⟩ : DB).coins_ledger.length + 2 :=
  distinct_keys_separate_rows ⟨[], [], []⟩ 0 1 1 10 7 "checkin" "checkin"
    "k1" "k2" (by decide) rfl rfl

/-- Claim C6: the balance `get_coins_balance` returns is the sum of the
delta fields of the account's ledger rows as the spec words it, it is 0
when the account has no rows, and it counts a retried award (same
`(account, source, ref_id)` dedup key) exactly once. The balance is always
recomputed from the rows — `get_coins_balance` reads nothing else. -/
theorem get_coins_balance_is_sum
    (db : DB) (uid now1 now2 : Nat) (d : Int) (s : String) (rid : Nat) :
    get_coins_balance db uid = balance_spec db uid
  ∧ (db.coins_ledger.filter (fun r => r.user_id == uid) = [] →
      get_coins_balance db uid = 0)
  ∧ (db.coins_ledger.find? (fun r =>
        r.user_id == uid && r.source == s && r.ref_id == some rid) = none →
      get_coins_balance (add_ledger_entry
        (add_ledger_entry db now1 uid d s (some rid) none).2
        now2 uid d s (some rid) none).2 uid
      = get_coins_balance db uid + d) := by
  refine ⟨?_, ?_, ?_⟩
  · show ((db.coins_ledger.filter (fun r => r.user_id == uid)).map
      (fun r => r.delta)).sum = _
    unfold balance_spec
    induction db.coins_ledger with
    | nil => rfl
    | cons a l ih =>
      by_cases hu : a.user_id = uid
      · simp [List.filter_cons, hu, ih]
      · simp [List.filter_cons, hu, ih]
  · intro hf
    unfold get_coins_balance
    rw [hf]
    rfl
  · intro h
    rw [add_no_ref_match db now1 uid d s rid h]
    rw [add_ref_retry_found db now1 now2 uid d d s rid h]
    unfold get_coins_balance
    simp [List.filter_append]

/-! ## Refresh-rotation claims -/

/-- Claim C3: the `/refresh` handler raises the single `InvalidCredential`
condition — HTTP 401 with the one undistinguishing detail string
"Invalid refresh token" — exactly when the presented plaintext hashes to no
stored record, or the first matching record is revoked (`revoked_at`
non-null) or not strictly unexpired (`expires_at <= now`); equivalently,
exactly when no matching record is usable, where usable means `revoked_at`
is null and `expires_at` lies in the future. All three causes produce this
same value; the only other failure, the orphaned-account 401, carries a
different detail and is not this condition. -/
theorem rotate_invalid_credential_iff
    (hash : String → String) (cat : Nat → Bool → String × Nat)
    (now : Nat) (q : String) (nrid nexp nein : Nat)
    (cip : Option String) (ua : String) (db : DB) (p : String) :
    (refresh_token hash cat now q nrid nexp nein cip ua db p).1
      = .error ⟨401, "Invalid refresh token"⟩
    ↔ ∀ rt, db.refresh_tokens.find?
        (fun r => r.token_hash == hash p) = some rt →
        ¬(rt.revoked_at = none ∧ now < rt.expires_at) := by
  unfold refresh_token rotate_read
  cases hfind : db.refresh_tokens.find? (fun r => r.token_hash == hash p) with
  | none => simp [hfind]
  | some rt =>
    simp only [hfind]
    by_cases hg : rt.revoked_at ≠ none ∨ rt.expires_at ≤ now
    · rw [if_pos hg]
      simp only [Except.error.injEq, true_and]
      constructor
      · intro _ rt0 h0
        cases h0
        rintro ⟨ha, hb⟩
        rcases hg with hg | hg
        · exact hg ha
        · omega
      · intro _
        trivial
    · rw [if_neg hg]
      push_neg at hg
      have husable : rt.revoked_at = none ∧ now < rt.expires_at := ⟨hg.1, hg.2⟩
      cases huser : db.users.find? (fun u => u.id == rt.user_id) with
      | none =>
        simp only []
        constructor
        · intro hcontra
          simp at hcontra
        · intro hall
          exact absurd husable (hall rt rfl)
      | some user =>
        simp only []
        constructor
        · intro hcontra
          simp at hcontra
        · intro hall
          exact absurd husable (hall rt rfl)

/-- Setting `revoked_at` on the row `.first()` returned keeps it the first
row matching its hash, now carrying `revoked_at = some now`. -/
lemma find?_revokeFirstByHash (h0 : String) (now : Nat)
    (l : List RefreshToken) (rt : RefreshToken)
    (hf : l.find? (fun r => r.token_hash == h0) = some rt) :
    (revokeFirstByHash h0 now l).find? (fun r => r.token_hash == h0)
      = some { rt with revoked_at := some now } := by
  induction l with
  | nil => simp at hf
  | cons r rs ih =>
    unfold revokeFirstByHash
    by_cases hr : r.token_hash == h0
    · simp only [List.find?, hr] at hf
      cases hf
      rw [if_pos hr]
      simp [List.find?, hr]
    · simp only [List.find?, Bool.of_not_eq_true hr] at hf
      rw [if_neg hr]
      simp only [List.find?, Bool.of_not_eq_true hr]
      exact ih hf

/-- Claim C2: presenting the plaintext of a freshly issued refresh token —
its stored record is the first match for its hash, unrevoked and strictly
unexpired, with its owning account present — succeeds exactly once: the
call returns a new token pair carrying the new plaintext, and every later
`rotate` presenting the same original plaintext (any time, any freshly
generated values) fails with the 401 `InvalidCredential` condition, because
the successful call set `revoked_at` on the matched record. -/
theorem rotate_once_succeeds_then_fails
    (hash : String → String) (cat cat2 : Nat → Bool → String × Nat)
    (now1 : Nat) (q : String) (nrid nexp nein : Nat)
    (cip : Option String) (ua : String)
    (db : DB) (p : String) (rt : RefreshToken) (user : User)
    (hfind : db.refresh_tokens.find? (fun r => r.token_hash == hash p) = some rt)
    (hactive : rt.revoked_at = none)
    (hexp : now1 < rt.expires_at)
    (huser : db.users.find? (fun u => u.id == rt.user_id) = some user) :
    ∃ out db1,
      refresh_token hash cat now1 q nrid nexp nein cip ua db p = (.ok out, db1)
    ∧ out.refresh_token = q
    ∧ ∀ (now2 : Nat) (q2 : String) (nrid2 nexp2 nein2 : Nat)
        (cip2 : Option String) (ua2 : String),
        (refresh_token hash cat2 now2 q2 nrid2 nexp2 nein2 cip2 ua2 db1 p).1
          = .error ⟨401, "Invalid refresh token"⟩ := by
  have hg : ¬(rt.revoked_at ≠ none ∨ rt.expires_at ≤ now1) := by
    push_neg
    exact ⟨hactive, hexp⟩
  have hread : rotate_read hash now1 db p = .ok (rt, user) := by
    unfold rotate_read
    simp only [hfind, huser, if_neg hg]
  have hmain : refresh_token hash cat now1 q nrid nexp nein cip ua db p
      = (.ok (rotate_write hash cat now1 q nrid nexp nein cip ua db p (rt, user)).1,
         (rotate_write hash cat now1 q nrid nexp nein cip ua db p (rt, user)).2) := by
    unfold refresh_token
    rw [hread]
  refine ⟨_, _, hmain, rfl, ?_⟩
  intro now2 q2 nrid2 nexp2 nein2 cip2 ua2
  have hdb1 : (rotate_write hash cat now1 q nrid nexp nein cip ua db p
      (rt, user)).2.refresh_tokens
      = revokeFirstByHash (hash p) now1 db.refresh_tokens
        ++ [⟨nrid, user.id, hash q, nexp, none, now1, cip, ua.take 255⟩] := rfl
  have hfind2 : ((rotate_write hash cat now1 q nrid nexp nein cip ua db p
      (rt, user)).2.refresh_tokens.find? (fun r => r.token_hash == hash p))
      = some { rt with revoked_at := some now1 } := by
    rw [hdb1, List.find?_append,
      find?_revokeFirstByHash (hash p) now1 db.refresh_tokens rt hfind]
    rfl
  unfold refresh_token rotate_read
  simp only [hfind2]
  rw [if_pos (by simp)]

/-- Witness for claim C2: one active token hashed "p" for user 1; rotating
"p" once succeeds, rotating "p" again always fails with 401. -/
theorem rotate_once_succeeds_then_fails_witness :
    ∃ out db1,
      refresh_token (fun s => s) (fun _ _ => ("at", 900)) 10 "q" 2 1000 900
        none ""
        ⟨[⟨1, "user", some "g", none, some "e", some "google", 0, none⟩],
         [⟨1, 1, "p", 100, none, 0, none, ""⟩], []⟩ "p" = (.ok out, db1)
    ∧ out.refresh_token = "q"
    ∧ ∀ (now2 : Nat) (q2 : String) (nrid2 nexp2 nein2 : Nat)
        (cip2 : Option String) (ua2 : String),
        (refresh_token (fun s => s) (fun _ _ => ("at", 900)) now2 q2 nrid2
          nexp2 nein2 cip2 ua2 db1 "p").1
          = .error ⟨401, "Invalid refresh token"⟩ :=
  rotate_once_succeeds_then_fails (fun s => s) (fun _ _ => ("at", 900))
    (fun _ _ => ("at", 900)) 10 "q" 2 1000 900 none ""
    ⟨[⟨1, "user", some "g", none, some "e", some "google", 0, none⟩],
     [⟨1, 1, "p", 100, none, 0, none, ""⟩], []⟩ "p"
    ⟨1, 1, "p", 100, none, 0, none, ""⟩
    ⟨1, "user", some "g", none, some "e", some "google", 0, none⟩
    rfl rfl (by decide) rfl

/-- Store for the claim C1 race: one account and one active refresh token
whose stored hash matches the plaintext "p" both racing requests present. -/
def raceDB : DB :=
  ⟨[⟨1, "user", some "g", none, some "e", some "google", 0, none⟩],
   [⟨1, 1, "p", 100, none, 0, none, ""⟩], []⟩

/-- What each racing request's read phase fetches from `raceDB`. -/
def raceFound : RefreshToken × User :=
  (⟨1, 1, "p", 100, none, 0, none, ""⟩,
   ⟨1, "user", some "g", none, some "e", some "google", 0, none⟩)

/-- Access-token issuer used in the race scenario. -/
def raceCat : Nat → Bool → String × Nat := fun _ _ => ("at", 900)

/-- Claim C1 fails on the code: the handler is a plain read-then-write in
two separate commits, with no conditional update guarded on `revoked_at`.
Under the interleaving where both requests run their SELECTs before either
commits — the read-committed outcome the claim says is impossible — both
reads fetch the same still-active record, both unconditional write phases
then run, and BOTH callers obtain a fresh token pair ("qa" and "qb"); the
final store even holds two active tokens for the one presented plaintext.
The claim demands that exactly one succeed and the other get 401. -/
theorem rotate_race_both_succeed :
    rotate_read (fun s => s) 10 raceDB "p" = .ok raceFound
  ∧ rotate_read (fun s => s) 11 raceDB "p" = .ok raceFound
  ∧ (rotate_write (fun s => s) raceCat 10 "qa" 2 1000 900 none "" raceDB "p"
      raceFound).1.refresh_token = "qa"
  ∧ (rotate_write (fun s => s) raceCat 11 "qb" 3 1000 900 none ""
      (rotate_write (fun s => s) raceCat 10 "qa" 2 1000 900 none "" raceDB "p"
        raceFound).2 "p" raceFound).1.refresh_token = "qb"
  ∧ ((rotate_write (fun s => s) raceCat 11 "qb" 3 1000 900 none ""
      (rotate_write (fun s => s) raceCat 10 "qa" 2 1000 900 none "" raceDB "p"
        raceFound).2 "p" raceFound).2.refresh_tokens.filter
      (fun r => r.revoked_at == none)).length = 2 :=
  ⟨rfl, rfl, rfl, rfl, rfl⟩

/-! ## Google-binding claims -/

/-- Counterexample to claim C9 as stated: claims carrying a non-empty
subject id and email but NO `email_verified` key — an email that is not
verified — are accepted by `verify_google_token` rather than rejected with
`UnverifiedIdentity`, because the code only rejects an explicit
`email_verified is False`. -/
theorem unverified_email_accepted_cex :
    verify_google_token (some ⟨some "g1", some "a@x.com", none⟩)
      = .ok ⟨some "g1", some "a@x.com", none⟩ := rfl

/-- Claim C9 as amended: the `/auth/google` handler fails with a 401 —
performing no account mutation, the store is returned untouched — exactly
when the external verification raised, the claims lack a non-empty email,
the claims assert `email_verified` is literally false, or the claims lack a
non-empty subject id; it proceeds exactly when subject id and email are
non-empty and `email_verified` is not explicitly false (a missing
`email_verified` key is accepted). -/
theorem verify_google_token_requirements
    (hash : String → String) (cat : Nat → Bool → String × Nat) (now : Nat)
    (verified : Option GoogleClaims) (device_id : Option String)
    (nuid : Nat) (plain : String) (nrid rexp rein : Nat)
    (cip : Option String) (ua : String) (db : DB) :
    ((∃ info, verify_google_token verified = .ok info)
      ↔ ∃ info, verified = some info ∧ strTruthy info.sub = true
          ∧ strTruthy info.email = true ∧ info.email_verified ≠ some false)
  ∧ ∀ e, verify_google_token verified = .error e →
      e.status_code = 401
      ∧ google_auth hash cat now verified device_id nuid plain nrid rexp rein
          cip ua db = (.error e, db) := by
  constructor
  · cases verified with
    | none => simp [verify_google_token]
    | some info =>
      unfold verify_google_token
      by_cases h1 : strTruthy info.email
      · by_cases h2 : info.email_verified = some false
        · simp [h1, h2]
        · by_cases h3 : strTruthy info.sub
          · simp [h1, h2, h3]
          · simp [h1, h2, h3]
      · simp [h1]
  · intro e he
    constructor
    · cases verified with
      | none =>
        simp [verify_google_token] at he
        rw [← he]
      | some info =>
        unfold verify_google_token at he
        by_cases h1 : strTruthy info.email
        · by_cases h2 : info.email_verified = some false
          · simp [h1, h2] at he
            rw [← he]
          · by_cases h3 : strTruthy info.sub
            · simp [h1, h2, h3] at he
            · simp [h1, h2, h3] at he
              rw [← he]
        · simp [h1] at he
          rw [← he]
    · unfold google_auth
      rw [he]

/-- Committing the mutation of one fetched user keeps the table size. -/
lemma updateFirst_length (p : User → Bool) (f : User → User) (l : List User) :
    (updateFirst p f l).length = l.length := by
  induction l with
  | nil => rfl
  | cons u us ih =>
    unfold updateFirst
    by_cases hu : p u
    · rw [if_pos hu]
      simp
    · rw [if_neg hu]
      simp [ih]

/-- The mutated image of the row `.first()` returned is in the committed
table. -/
lemma updateFirst_found_mem (p : User → Bool) (f : User → User)
    (l : List User) (x : User) (h : l.find? p = some x) :
    f x ∈ updateFirst p f l := by
  induction l with
  | nil => simp at h
  | cons u us ih =>
    unfold updateFirst
    by_cases hu : p u
    · rw [List.find?_cons_of_pos us hu] at h
      cases h
      rw [if_pos hu]
      exact List.mem_cons_self _ _
    · rw [List.find?_cons_of_neg us hu] at h
      rw [if_neg hu]
      exact List.mem_cons_of_mem u (ih h)

/-- Claim C7: with no account bound to the claimed subject id, a guest
account matching the supplied device id, and no email collision, binding
the Google claims returns the guest's own account id, the user table keeps
its size (no new account), and the guest record now carries status `user`,
provider `google`, the claimed subject id and the normalized email — the
guest is upgraded in place, not replaced. -/
theorem google_auth_guest_upgrade
    (hash : String → String) (cat : Nat → Bool → String × Nat)
    (now : Nat) (info : GoogleClaims) (gsub email0 : String)
    (device_id : Option String) (nuid : Nat) (plain : String) (nrid : Nat)
    (rexp rein : Nat) (cip : Option String) (ua : String)
    (db : DB) (guest : User)
    (hs : info.sub = some gsub) (hsne : gsub ≠ "")
    (he : info.email = some email0) (hene : email0 ≠ "")
    (hev : info.email_verified ≠ some false)
    (hno : db.users.find? (fun u => u.google_sub == some gsub) = none)
    (hdev : strTruthy device_id = true)
    (hguest : db.users.find? (fun u =>
      u.device_id == device_id && u.status == "guest") = some guest)
    (hcol : ∀ owner, db.users.find? (fun u =>
      u.email == some (pyStrip (pyLower email0)) && u.id != guest.id) = some owner →
      owner.google_sub = some gsub) :
    ∃ out db2,
      google_auth hash cat now (some info) device_id nuid plain nrid rexp rein
        cip ua db = (.ok out, db2)
    ∧ out.user_id = guest.id
    ∧ db2.users.length = db.users.length
    ∧ ∃ u, u ∈ db2.users ∧ u.id = guest.id ∧ u.status = "user"
        ∧ u.auth_provider = some "google" ∧ u.google_sub = some gsub
        ∧ u.email = some (pyStrip (pyLower email0)) := by
  have hv : verify_google_token (some info) = .ok info := by
    unfold verify_google_token
    simp [strTruthy, hs, he, hene, hsne, hev]
  have hconf : (match db.users.find? (fun u =>
      u.email == some (pyStrip (pyLower email0)) && u.id != guest.id) with
      | some owner => owner.google_sub != some gsub
      | none => false) = false := by
    cases hOwner : db.users.find? (fun u =>
        u.email == some (pyStrip (pyLower email0)) && u.id != guest.id) with
    | none => rfl
    | some owner => simp [hcol owner hOwner]
  unfold google_auth
  rw [hv]
  simp only [hs, he, Option.getD_some]
  rw [hno]
  simp only [hdev, if_true]
  simp only [hguest]
  rw [hconf]
  simp only [Bool.false_eq_true, if_false]
  refine ⟨_, _, rfl, rfl, ?_, ?_⟩
  · exact updateFirst_length _ _ _
  · refine ⟨upgradeGuest now gsub (pyStrip (pyLower email0)) guest, ?_,
      rfl, rfl, rfl, rfl, rfl⟩
    exact updateFirst_found_mem _ _ _ _ hguest

/-- Witness for claim C7: guest id 7 holding device "dev-1" is upgraded in
place by claims sub "g1", email "a@x.com". -/
theorem google_auth_guest_upgrade_witness :
    ∃ out db2,
      google_auth (fun s => s) (fun _ _ => ("at", 900)) 5
        (some ⟨some "g1", some "a@x.com", none⟩) (some "dev-1") 99 "rt" 50
        1000 900 none ""
        ⟨[⟨7, "guest", none, some "dev-1", none, none, 0, none⟩], [], []⟩
        = (.ok out, db2)
    ∧ out.user_id = (⟨7, "guest", none, some "dev-1", none, none, 0, none⟩ : User).id
    ∧ db2.users.length
        = (⟨[⟨7, "guest", none, some "dev-1", none, none, 0, none⟩], [], []⟩ : DB).users.length
    ∧ ∃ u, u ∈ db2.users
        ∧ u.id = (⟨7, "guest", none, some "dev-1", none, none, 0, none⟩ : User).id
        ∧ u.status = "user"
        ∧ u.auth_provider = some "google" ∧ u.google_sub = some "g1"
        ∧ u.email = some (pyStrip (pyLower "a@x.com")) :=
  google_auth_guest_upgrade (fun s => s) (fun _ _ => ("at", 900)) 5
    ⟨some "g1", some "a@x.com", none⟩ "g1" "a@x.com" (some "dev-1") 99 "rt" 50
    1000 900 none ""
    ⟨[⟨7, "guest", none, some "dev-1", none, none, 0, none⟩], [], []⟩
    ⟨7, "guest", none, some "dev-1", none, none, 0, none⟩
    rfl (by decide) rfl (by decide) (by decide) rfl rfl rfl
    (fun owner h => Option.noConfusion h)

/-- Claim C8: if, during a guest upgrade, the normalized claimed email is
already owned by a different account whose external subject id differs,
the handler fails with the 409 `IdentityConflict` condition and returns the
store exactly as it received it — the guest, whose status is `guest`, is
not modified in any field by the failed call. -/
theorem google_auth_email_conflict
    (hash : String → String) (cat : Nat → Bool → String × Nat)
    (now : Nat) (info : GoogleClaims) (gsub email0 : String)
    (device_id : Option String) (nuid : Nat) (plain : String) (nrid : Nat)
    (rexp rein : Nat) (cip : Option String) (ua : String)
    (db : DB) (guest owner : User)
    (hs : info.sub = some gsub) (hsne : gsub ≠ "")
    (he : info.email = some email0) (hene : email0 ≠ "")
    (hev : info.email_verified ≠ some false)
    (hno : db.users.find? (fun u => u.google_sub == some gsub) = none)
    (hdev : strTruthy device_id = true)
    (hguest : db.users.find? (fun u =>
      u.device_id == device_id && u.status == "guest") = some guest)
    (hown : db.users.find? (fun u =>
      u.email == some (pyStrip (pyLower email0)) && u.id != guest.id) = some owner)
    (hdiff : owner.google_sub ≠ some gsub) :
    google_auth hash cat now (some info) device_id nuid plain nrid rexp rein
      cip ua db = (.error ⟨409, "Email already in use by another account"⟩, db)
    ∧ guest.status = "guest" := by
  have hv : verify_google_token (some info) = .ok info := by
    unfold verify_google_token
    simp [strTruthy, hs, he, hene, hsne, hev]
  have hconf : (match db.users.find? (fun u =>
      u.email == some (pyStrip (pyLower email0)) && u.id != guest.id) with
      | some owner => owner.google_sub != some gsub
      | none => false) = true := by
    rw [hown]
    simp [hdiff]
  constructor
  · unfold google_auth
    rw [hv]
    simp only [hs, he, Option.getD_some]
    rw [hno]
    simp only [hdev, if_true]
    simp only [hguest]
    rw [hconf]
    rfl
  · have hp := List.find?_some hguest
    simp only [Bool.and_eq_true, beq_iff_eq] at hp
    exact hp.2

/-- Witness for claim C8: an existing user bound to sub "g1" owns
"a@x.com"; a guest with device "dev-2" binding sub "g2" and the same email
gets 409 and the store is unchanged. -/
theorem google_auth_email_conflict_witness :
    google_auth (fun s => s) (fun _ _ => ("at", 900)) 5
      (some ⟨some "g2", some "a@x.com", some true⟩) (some "dev-2") 99 "rt" 50
      1000 900 none ""
      ⟨[⟨1, "user", some "g1", none, some "a@x.com", some "google", 0, none⟩,
        ⟨2, "guest", none, some "dev-2", none, none, 0, none⟩], [], []⟩
      = (.error ⟨409, "Email already in use by another account"⟩,
         ⟨[⟨1, "user", some "g1", none, some "a@x.com", some "google", 0, none⟩,
           ⟨2, "guest", none, some "dev-2", none, none, 0, none⟩], [], []⟩)
    ∧ (⟨2, "guest", none, some "dev-2", none, none, 0, none⟩ : User).status
        = "guest" :=
  google_auth_email_conflict (fun s => s) (fun _ _ => ("at", 900)) 5
    ⟨some "g2", some "a@x.com", some true⟩ "g2" "a@x.com" (some "dev-2") 99
    "rt" 50 1000 900 none ""
    ⟨[⟨1, "user", some "g1", none, some "a@x.com", some "google", 0, none⟩,
      ⟨2, "guest", none, some "dev-2", none, none, 0, none⟩], [], []⟩
    ⟨2, "guest", none, some "dev-2", none, none, 0, none⟩
    ⟨1, "user", some "g1", none, some "a@x.com", some "google", 0, none⟩
    rfl (by decide) rfl (by decide) (by decide) rfl rfl rfl (by decide)
    (by decide)

/-! ## Streak claim -/

/-- The rotation of the while loop: every day strictly closer than the
computed streak is an activity day, and the day just beyond it is not. -/
lemma streak_from_spec (s : Finset ℤ) (cur : ℤ) :
    (∀ k : Nat, k < streak_from s cur → cur - (k : ℤ) ∈ s)
  ∧ (cur - (streak_from s cur : ℤ)) ∉ s := by
  induction cur using streak_from.induct s with
  | case1 x hx ih =>
    rw [streak_from, dif_pos hx]
    constructor
    · intro k hk
      cases k with
      | zero => simpa using hx
      | succ j =>
        have hj : j < streak_from s (x - 1) := by omega
        have := ih.1 j hj
        have heq : x - 1 - (j : ℤ) = x - ((j : ℤ) + 1) := by ring
        rw [heq] at this
        push_cast
        exact this
    · have := ih.2
      have heq : x - 1 - (streak_from s (x - 1) : ℤ)
          = x - ((1 + streak_from s (x - 1) : Nat) : ℤ) := by push_cast; ring
      rw [heq] at this
      exact this
  | case2 x hx =>
    rw [streak_from, dif_neg hx]
    constructor
    · intro k hk
      omega
    · simpa using hx

/-- Claim C10: for every finite set of activity dates, `calc_current_streak`
(a total function, so it terminates) returns the unique n such that today,
today-1, ..., today-(n-1) all lie in the set and today-n does not; in
particular it returns 0 when the set is empty or today is not in it. -/
theorem calc_current_streak_spec (today : ℤ) (s : Finset ℤ) :
    (∀ k : Nat, k < calc_current_streak today s → today - (k : ℤ) ∈ s)
  ∧ (today - (calc_current_streak today s : ℤ)) ∉ s
  ∧ (∀ n : Nat, (∀ k : Nat, k < n → today - (k : ℤ) ∈ s) →
      (today - (n : ℤ)) ∉ s → n = calc_current_streak today s)
  ∧ (s = ∅ → calc_current_streak today s = 0)
  ∧ (today ∉ s → calc_current_streak today s = 0) := by
  have hcalc : calc_current_streak today s = streak_from s today := by
    unfold calc_current_streak
    by_cases hs : s = ∅
    · rw [if_pos hs, hs, streak_from]
      simp
    · rw [if_neg hs]
  have hspec := streak_from_spec s today
  rw [hcalc]
  refine ⟨hspec.1, hspec.2, ?_, ?_, ?_⟩
  · intro n hmem hnot
    by_contra hne
    rcases Nat.lt_or_ge n (streak_from s today) with hlt | hge
    · exact hnot (hspec.1 n hlt)
    · have hlt2 : streak_from s today < n := by omega
      exact hspec.2 (hmem _ hlt2)
  · intro hs
    rw [hs, streak_from]
    simp
  · intro h
    rw [streak_from, dif_neg h]
